import Mathlib

/-!
Shallow embedding of the Helper bot's per-user state and quota layer
(src/main.py; src/database.py is an older standalone copy of the same
functions that the entry-point module never imports, so src/main.py is
the code that runs).

Modelling conventions:
- All persistent rows that the claims touch belong to a single user, so
  the store is modelled per user: the `user_requests` row is an
  `Option (String × Int)` (date marker, count), the `user_memory` rows
  are a list of (question, answer) pairs kept in insertion/timestamp
  order (sequential calls get strictly increasing `datetime.now()`
  timestamps, so `ORDER BY timestamp ASC` is insertion order), and the
  `premium_users` table is the list of its `user_id` rows in rowid
  order.  `ADMIN_IDS` and the premium table are passed explicitly where
  the Python reads globals.
- Python's `float` return of `get_requests_left` (a number or
  `float('inf')`) is the two-constructor type `RequestsLeft`.
- Counts are `Int`: the SQLite `count` column is a signed integer and
  `max(0, limit - count)` is computed over integers.
-/

namespace Helper

/-- The configured admin set, `ADMIN_IDS` (src/main.py line 28): an empty literal. -/
def ADMIN_IDS : List Nat := []

/-- Constant `MEMORY_LIMIT = 10` (src/main.py line 47). -/
def MEMORY_LIMIT : Nat := 10

/-- Constant `REQUEST_LIMIT = 50` (src/main.py line 48). -/
def REQUEST_LIMIT : Int := 50

/-- Constant `PREMIUM_REQUEST_LIMIT = 500` (src/main.py line 49). -/
def PREMIUM_REQUEST_LIMIT : Int := 500

/-- One `user_requests` row: the stored date marker and the stored count. -/
abbrev ReqRow := String × Int

/-- Result type of `get_requests_left`: `float('inf')` for admins, a number otherwise. -/
inductive RequestsLeft
  | unbounded
  | fin (n : Int)
deriving DecidableEq, Repr

/-- Python `x <= 0` on the result of `get_requests_left`
(`float('inf') <= 0` is false). -/
def RequestsLeft.leZero : RequestsLeft → Bool
  | .unbounded => false
  | .fin n => decide (n ≤ 0)

/-- Function `is_premium_user` (src/main.py lines 251-256): membership test on the
`premium_users` table. -/
def is_premium_user (premium : List Nat) (uid : Nat) : Bool :=
  premium.contains uid

/-- Function `add_premium_user` (src/main.py lines 235-240):
`INSERT OR IGNORE INTO premium_users` — a new row is appended only when no
row with this primary key exists. -/
def add_premium_user (premium : List Nat) (uid : Nat) : List Nat :=
  if premium.contains uid then premium else premium ++ [uid]

/-- Function `remove_premium_user` (src/main.py lines 243-248):
`DELETE FROM premium_users WHERE user_id = ?`. -/
def remove_premium_user (premium : List Nat) (uid : Nat) : List Nat :=
  premium.filter (fun x => x != uid)

/-- Function `update_request_count` (src/main.py lines 287-300): admins return
immediately; otherwise a missing row or a stale date marker is replaced by
`(today, 1)` and a fresh row gets `count = count + 1`. -/
def update_request_count (adminIds : List Nat) (uid : Nat) (today : String)
    (req : Option ReqRow) : Option ReqRow :=
  if adminIds.contains uid then req
  else
    match req with
    | none => some (today, 1)
    | some (d, c) => if d ≠ today then some (today, 1) else some (d, c + 1)

/-- Function `get_requests_left` (src/main.py lines 303-314): `float('inf')` for
admins; otherwise the premium or standard limit when there is no row for
today, and `max(0, limit - count)` when there is. -/
def get_requests_left (adminIds premium : List Nat) (uid : Nat) (today : String)
    (req : Option ReqRow) : RequestsLeft :=
  if adminIds.contains uid then .unbounded
  else
    let lim : Int := if is_premium_user premium uid then PREMIUM_REQUEST_LIMIT else REQUEST_LIMIT
    match req with
    | none => .fin lim
    | some (d, c) => if d ≠ today then .fin lim else .fin (max 0 (lim - c))

/-- The claim side's "today's stored QuotaRecord count": the stored count
when the stored date marker is today, 0 otherwise. -/
def stored_count_today (today : String) (req : Option ReqRow) : Int :=
  match req with
  | none => 0
  | some (d, c) => if d = today then c else 0

/-- Iterate `update_request_count`: `n` successive calls on day `day`. -/
def run_updates (adminIds : List Nat) (uid : Nat) (day : String) :
    Nat → Option ReqRow → Option ReqRow
  | 0, req => req
  | n + 1, req => run_updates adminIds uid day n (update_request_count adminIds uid day req)

/-- Function `save_memory` (src/main.py lines 259-271): insert the new (question,
answer) row, then delete `memories[:-MEMORY_LIMIT]` — every row except the
last `MEMORY_LIMIT` in timestamp order — whenever more than `MEMORY_LIMIT`
rows remain. -/
def save_memory (m : List (String × String)) (e : String × String) :
    List (String × String) :=
  let m2 := m ++ [e]
  if MEMORY_LIMIT < m2.length then m2.drop (m2.length - MEMORY_LIMIT) else m2

/-- Function `get_memory` (src/main.py lines 274-278): all rows of the user,
`ORDER BY timestamp DESC` — newest first. -/
def get_memory (m : List (String × String)) : List (String × String) :=
  m.reverse

/-- Function `clear_memory` (src/main.py lines 281-284): delete every row of the user. -/
def clear_memory (_m : List (String × String)) : List (String × String) :=
  []

/-! ## Message construction for the LLM call (`call_openai_with_prompt`) -/

/-- Chat-message roles of the OpenAI payload. -/
inductive Role
  | system
  | user
  | assistant
deriving DecidableEq, Repr

/-- The constant system prompt of `call_openai_with_prompt` (src/main.py
lines 399-409); the exact Russian wording is an opaque text constant that
none of the claims inspects. -/
def system_prompt : String :=
  "system prompt (Russian assistant instructions, src/main.py 399-409)"

/-- The `mem[-3:]` slice of `call_openai_with_prompt` (src/main.py line
414): `mem = await get_memory(user_id)` is the newest-first row list and
`mem[-3:]` is its last at-most-three elements, iterated in slice order. -/
def prior_exchanges (m : List (String × String)) : List (String × String) :=
  let mem := get_memory m
  mem.drop (mem.length - 3)

/-- Modelled from the spec (refinement comparison only, not source code):
"last 3 for LLM context" means the at-most-three most recent (prompt,
response) pairs in chronological order, the oldest of those first.  With
`m` in insertion order that is the final at-most-three elements of `m`. -/
def spec_prior_exchanges (m : List (String × String)) : List (String × String) :=
  m.drop (m.length - 3)

/-- The `messages` list built by `call_openai_with_prompt` (src/main.py
lines 412-417): system prompt, then a user/assistant pair per slice
element in order, then the current user prompt. -/
def build_messages (sys : String) (m : List (String × String)) (prompt : String) :
    List (Role × String) :=
  (Role.system, sys) ::
    ((prior_exchanges m).flatMap (fun qa => [(Role.user, qa.1), (Role.assistant, qa.2)]) ++
      [(Role.user, prompt)])

/-! ## The handler-level state and the message handlers -/

/-- The slice of persistent state one inbound update can touch: the user's
`user_requests` row, their `user_memory` rows (insertion order), their
`user_state` row, the global `premium_users` table, the in-process
`admin_broadcast_state` draft for this user, and the two `users`-table
counters the handlers bump. -/
structure Db where
  req : Option ReqRow
  memory : List (String × String)
  session : Option String
  premium : List Nat
  broadcastDraft : Option String
  msgCount : Nat
  photoCount : Nat
deriving DecidableEq, Repr

/-- The user-visible outcome of a handler, by branch.  Message texts that
no claim inspects (admin memory dumps, error wording) are abstracted to
the branch tag plus the data the branch computes. -/
inductive Reply
  | emptyText
  | broadcastPreview (text : String)
  | memoryViewed (target : Nat)
  | invalidId
  | premiumAdded (target : Nat)
  | premiumRemoved (target : Nat)
  | limitExhausted
  | apiError (e : String)
  | answer (text : String)
  | cantRecognize
  | noAccess
  | adminPanel
deriving DecidableEq, Repr

/-- Prompt prefix of the `awaiting_conspект` branch (src/main.py line 780). -/
def conspect_preamble : String := "Составь краткий конспект:\n\n"

/-- Prompt prefix of the default branch (src/main.py line 782). -/
def solve_preamble : String := "Реши задачу или ответь на вопрос:\n\n"

/-- Python's `str.strip()` (whitespace from both ends), written over the
character list so that it computes by kernel reduction. -/
def strip (s : String) : String :=
  List.asString
    (((s.toList.dropWhile Char.isWhitespace).reverse.dropWhile Char.isWhitespace).reverse)

/-- The session tags that route an admin's text message into an admin
sub-flow instead of the LLM path (src/main.py lines 731-774). -/
def admin_text_states : List String :=
  ["admin_broadcast", "admin_view_memory", "admin_add_premium", "admin_remove_premium"]

/-- Handler `handle_text` (src/main.py lines 723-795).  `llm` is the completion
collaborator: it maps the built message list to either an error (the
`except` branch) or the answer text.  The admin memory-view branch only
reads another user's rows, so on this user's state it just clears the
session. -/
def handle_text (adminIds : List Nat) (uid : Nat) (today : String) (text : String)
    (llm : List (Role × String) → Except String String) (db : Db) : Db × Reply :=
  let state := db.session
  let user_text := strip text
  if user_text = "" then (db, .emptyText)
  else if adminIds.contains uid && state == some "admin_broadcast" then
    ({ db with broadcastDraft := some user_text, session := none },
      .broadcastPreview user_text)
  else if adminIds.contains uid && state == some "admin_view_memory" then
    match user_text.toNat? with
    | some target => ({ db with session := none }, .memoryViewed target)
    | none => ({ db with session := none }, .invalidId)
  else if adminIds.contains uid && state == some "admin_add_premium" then
    match user_text.toNat? with
    | some target =>
        ({ db with premium := add_premium_user db.premium target, session := none },
          .premiumAdded target)
    | none => ({ db with session := none }, .invalidId)
  else if adminIds.contains uid && state == some "admin_remove_premium" then
    match user_text.toNat? with
    | some target =>
        ({ db with premium := remove_premium_user db.premium target, session := none },
          .premiumRemoved target)
    | none => ({ db with session := none }, .invalidId)
  else
    let db1 := { db with msgCount := db.msgCount + 1 }
    if (get_requests_left adminIds db1.premium uid today db1.req).leZero &&
        !(adminIds.contains uid) then
      (db1, .limitExhausted)
    else
      let prompt :=
        (if state == some "awaiting_conspект" then conspect_preamble else solve_preamble) ++
          user_text
      match llm (build_messages system_prompt db1.memory prompt) with
      | .error e => ({ db1 with session := none }, .apiError e)
      | .ok answer =>
          let db2 :=
            if adminIds.contains uid then db1
            else { db1 with req := update_request_count adminIds uid today db1.req }
          ({ db2 with memory := save_memory db2.memory (user_text, answer), session := none },
            .answer answer)

/-- Handler `handle_photo` (src/main.py lines 798-844), entered after the photo
download succeeded.  `ocr_text` is the output of `ocr_image_from_bytes`,
which returns `""` both on an empty extraction and on an extraction
error (its `except` branch and the caller's both yield `""`). -/
def handle_photo (adminIds : List Nat) (uid : Nat) (today : String) (ocr_text : String)
    (llm : List (Role × String) → Except String String) (db : Db) : Db × Reply :=
  let state := db.session
  let db1 := { db with photoCount := db.photoCount + 1 }
  if (get_requests_left adminIds db1.premium uid today db1.req).leZero &&
      !(adminIds.contains uid) then
    (db1, .limitExhausted)
  else if ocr_text = "" then
    ({ db1 with session := none }, .cantRecognize)
  else
    let prompt :=
      (if state == some "awaiting_conspект" then conspect_preamble else solve_preamble) ++
        ocr_text
    match llm (build_messages system_prompt db1.memory prompt) with
    | .error e => ({ db1 with session := none }, .apiError e)
    | .ok answer =>
        let db2 :=
          if adminIds.contains uid then db1
          else { db1 with req := update_request_count adminIds uid today db1.req }
        ({ db2 with memory := save_memory db2.memory (ocr_text, answer), session := none },
          .answer answer)

/-- Handler `cmd_admin_panel` (src/main.py lines 543-553): non-admins are refused
before any state is touched; admins get their stats bumped and the panel. -/
def cmd_admin_panel (adminIds : List Nat) (uid : Nat) (db : Db) : Db × Reply :=
  if !(adminIds.contains uid) then (db, .noAccess)
  else ({ db with msgCount := db.msgCount + 1 }, .adminPanel)

/-! ## Interleaving model of concurrent `update_request_count` calls

`update_request_count` runs two database statements with an `await`
suspension between them: the `SELECT count, date` read, and then one
write (either `INSERT OR REPLACE ... VALUES (?, ?, 1)` or
`UPDATE ... SET count = count + 1`).  Under asyncio's cooperative
scheduling another task may run between the read and the write, so a
concurrent execution is an interleaving of per-call atomic steps; each
SQL statement itself is atomic. -/

/-- Progress of one in-flight non-admin `update_request_count` call:
not yet read, read done (holding the row the `SELECT` captured), or
finished. -/
inductive CallPhase
  | ready
  | readDone (captured : Option ReqRow)
  | finished
deriving DecidableEq, Repr

/-- The write statement of `update_request_count`, applied to the current
row `db`, with the branch chosen from the earlier `SELECT`'s `captured`
row: a missing or stale captured row triggers `INSERT OR REPLACE (today, 1)`;
otherwise `UPDATE ... SET count = count + 1` increments whatever row
currently exists (and touches nothing when none does). -/
def write_back (today : String) (captured : Option ReqRow) (db : Option ReqRow) :
    Option ReqRow :=
  match captured with
  | none => some (today, 1)
  | some (d, _) =>
      if d ≠ today then some (today, 1)
      else
        match db with
        | some (d2, c2) => some (d2, c2 + 1)
        | none => none

/-- Two concurrent calls over the shared row. -/
structure TwoCalls where
  db : Option ReqRow
  a : CallPhase
  b : CallPhase
deriving DecidableEq, Repr

/-- Run one atomic step of call `a` (when `pickA`) or call `b`. -/
def race_step (today : String) (s : TwoCalls) (pickA : Bool) : TwoCalls :=
  if pickA then
    match s.a with
    | .ready => { s with a := .readDone s.db }
    | .readDone captured => { s with db := write_back today captured s.db, a := .finished }
    | .finished => s
  else
    match s.b with
    | .ready => { s with b := .readDone s.db }
    | .readDone captured => { s with db := write_back today captured s.db, b := .finished }
    | .finished => s

/-- Run a whole schedule (list of which-call choices). -/
def run_schedule (today : String) (sched : List Bool) (s : TwoCalls) : TwoCalls :=
  sched.foldl (race_step today) s

/-- A four-entry memory in insertion order, for evaluating the context slice. -/
def mem_four : List (String × String) :=
  [("q1", "a1"), ("q2", "a2"), ("q3", "a3"), ("q4", "a4")]

/-- A two-entry memory in insertion order. -/
def mem_two : List (String × String) :=
  [("q1", "a1"), ("q2", "a2")]

/-- Eleven (that is, `MEMORY_LIMIT + 1`) concrete exchanges, for the eviction scenario. -/
def eleven_entries : List (String × String) :=
  [("q1", "a1"), ("q2", "a2"), ("q3", "a3"), ("q4", "a4"), ("q5", "a5"), ("q6", "a6"),
   ("q7", "a7"), ("q8", "a8"), ("q9", "a9"), ("q10", "a10"), ("q11", "a11")]

/-! ## Lemmas about the memory window -/

theorem save_memory_eq_drop (m : List (String × String)) (e : String × String) :
    save_memory m e = (m ++ [e]).drop ((m ++ [e]).length - MEMORY_LIMIT) := by
  simp only [save_memory]
  split
  · rfl
  · next h =>
      have hM : MEMORY_LIMIT = 10 := rfl
      have h0 : (m ++ [e]).length - MEMORY_LIMIT = 0 := by omega
      rw [h0, List.drop_zero]

theorem length_save_memory_le (m : List (String × String)) (e : String × String) :
    (save_memory m e).length ≤ MEMORY_LIMIT := by
  rw [save_memory_eq_drop, List.length_drop]
  omega

theorem save_memory_no_evict (m : List (String × String)) (e : String × String)
    (h : m.length + 1 ≤ MEMORY_LIMIT) : save_memory m e = m ++ [e] := by
  simp only [save_memory]
  rw [if_neg]
  simp only [List.length_append, List.length_singleton]
  omega

theorem foldl_save_small (es : List (String × String)) :
    ∀ m : List (String × String), m.length + es.length ≤ MEMORY_LIMIT →
      List.foldl save_memory m es = m ++ es := by
  induction es with
  | nil => intro m _; simp
  | cons e rest ih =>
      intro m h
      simp only [List.length_cons] at h
      simp only [List.foldl_cons]
      rw [save_memory_no_evict m e (by omega),
        ih (m ++ [e]) (by simp only [List.length_append, List.length_singleton]; omega)]
      simp

theorem foldl_save_full (es : List (String × String)) (h : es.length = MEMORY_LIMIT + 1) :
    List.foldl save_memory [] es = es.drop 1 := by
  obtain ⟨a, ha⟩ : ∃ a, es.drop MEMORY_LIMIT = [a] := by
    rw [← List.length_eq_one, List.length_drop, h]
    omega
  have hlen : (es.take MEMORY_LIMIT).length = MEMORY_LIMIT := by
    rw [List.length_take, h]
    omega
  have hsplit : es = es.take MEMORY_LIMIT ++ [a] := by
    conv_lhs => rw [← List.take_append_drop MEMORY_LIMIT es]
    rw [ha]
  rw [hsplit, List.foldl_append]
  simp only [List.foldl_cons, List.foldl_nil]
  rw [foldl_save_small (es.take MEMORY_LIMIT) [] (by simp [hlen]), List.nil_append,
    save_memory_eq_drop]
  congr 1
  simp only [List.length_append, List.length_singleton, hlen]
  omega

/-! ## Lemmas about the quota functions -/

theorem requests_left_admin (adminIds premium : List Nat) (uid : Nat) (today : String)
    (req : Option ReqRow) (h : adminIds.contains uid = true) :
    get_requests_left adminIds premium uid today req = .unbounded := by
  unfold get_requests_left
  rw [h, if_pos rfl]

theorem requests_left_nonadmin (adminIds premium : List Nat) (uid : Nat) (today : String)
    (req : Option ReqRow) (h : adminIds.contains uid = false) :
    get_requests_left adminIds premium uid today req =
      .fin (max 0
        ((if is_premium_user premium uid then PREMIUM_REQUEST_LIMIT else REQUEST_LIMIT) -
          stored_count_today today req)) := by
  have hlim : (0 : Int) ≤
      (if is_premium_user premium uid then PREMIUM_REQUEST_LIMIT else REQUEST_LIMIT) := by
    split
    · decide
    · decide
  unfold get_requests_left
  rw [h, if_neg Bool.false_ne_true]
  cases req with
  | none =>
      dsimp only [stored_count_today]
      rw [sub_zero, max_eq_right hlim]
  | some dc =>
      obtain ⟨d, c⟩ := dc
      dsimp only [stored_count_today]
      by_cases hd : d = today
      · rw [if_neg (not_not_intro hd), if_pos hd]
      · rw [if_pos hd, if_neg hd, sub_zero, max_eq_right hlim]

theorem update_nonadmin (adminIds : List Nat) (uid : Nat) (today : String)
    (req : Option ReqRow) (h : adminIds.contains uid = false) :
    update_request_count adminIds uid today req =
      match req with
      | none => some (today, 1)
      | some (d, c) => if d = today then some (d, c + 1) else some (today, 1) := by
  unfold update_request_count
  rw [h, if_neg Bool.false_ne_true]
  cases req with
  | none => rfl
  | some dc =>
      obtain ⟨d, c⟩ := dc
      dsimp only
      by_cases hd : d = today
      · rw [if_neg (not_not_intro hd), if_pos hd]
      · rw [if_pos hd, if_neg hd]

theorem stored_count_today_none (today : String) :
    stored_count_today today none = 0 := rfl

theorem stored_count_today_same (today : String) (x : Int) :
    stored_count_today today (some (today, x)) = x := by
  dsimp only [stored_count_today]
  rw [if_pos rfl]

theorem stored_count_today_other (today d : String) (x : Int) (h : d ≠ today) :
    stored_count_today today (some (d, x)) = 0 := by
  dsimp only [stored_count_today]
  rw [if_neg h]

theorem run_updates_admin (adminIds : List Nat) (uid : Nat) (day : String)
    (h : adminIds.contains uid = true) :
    ∀ (n : Nat) (req : Option ReqRow), run_updates adminIds uid day n req = req := by
  intro n
  induction n with
  | zero => intro req; rfl
  | succ k ih =>
      intro req
      show run_updates adminIds uid day k (update_request_count adminIds uid day req) = req
      rw [show update_request_count adminIds uid day req = req from by
        unfold update_request_count; rw [h, if_pos rfl]]
      exact ih req

theorem run_updates_nonadmin_date (adminIds : List Nat) (uid : Nat) (day : String)
    (h : adminIds.contains uid = false) :
    ∀ (n : Nat) (req : Option ReqRow), 1 ≤ n →
      ∃ c : Int, run_updates adminIds uid day n req = some (day, c) := by
  intro n
  induction n with
  | zero => intro req h0; exact absurd h0 (by omega)
  | succ k ih =>
      intro req _
      rcases Nat.eq_zero_or_pos k with hk | hk
      · subst hk
        show ∃ c : Int, update_request_count adminIds uid day req = some (day, c)
        rw [update_nonadmin adminIds uid day req h]
        cases req with
        | none => exact ⟨1, rfl⟩
        | some dc =>
            obtain ⟨d, c⟩ := dc
            dsimp only
            by_cases hd : d = day
            · subst hd
              exact ⟨c + 1, by rw [if_pos rfl]⟩
            · exact ⟨1, by rw [if_neg hd]⟩
      · exact ih (update_request_count adminIds uid day req) hk

/-! ## The claims -/

/-- C3: after every `save_memory` call, `get_memory` returns at most
`MEMORY_LIMIT` entries, and exactly the `MEMORY_LIMIT` most recent inserted
entries (in the stored newest-first order); in particular
`MEMORY_LIMIT + 1` sequential saves into an empty memory leave exactly the
`MEMORY_LIMIT` most recent entries, the oldest one evicted. -/
theorem c3_memory_window :
    (∀ (m : List (String × String)) (e : String × String),
      (get_memory (save_memory m e)).length ≤ MEMORY_LIMIT ∧
      get_memory (save_memory m e) =
        ((m ++ [e]).drop ((m ++ [e]).length - MEMORY_LIMIT)).reverse) ∧
    (∀ es : List (String × String), es.length = MEMORY_LIMIT + 1 →
      (get_memory (List.foldl save_memory [] es)).length = MEMORY_LIMIT ∧
      get_memory (List.foldl save_memory [] es) = (es.drop 1).reverse) := by
  constructor
  · intro m e
    refine ⟨?_, ?_⟩
    · rw [get_memory, List.length_reverse]
      exact length_save_memory_le m e
    · rw [get_memory, save_memory_eq_drop]
  · intro es h
    rw [get_memory, foldl_save_full es h]
    refine ⟨?_, rfl⟩
    rw [List.length_reverse, List.length_drop, h]
    omega

/-- C3 witness: eleven concrete saves into an empty memory keep exactly the
last ten. -/
theorem c3_memory_window_witness :
    get_memory (List.foldl save_memory [] eleven_entries) =
      (eleven_entries.drop 1).reverse :=
  (c3_memory_window.2 eleven_entries (by decide)).2

/-- C4 (the code at the failing input): with four stored exchanges the
`mem[-3:]` slice of `call_openai_with_prompt` is the three OLDEST pairs in
reverse-chronological order — not, as the spec says, the three most recent
pairs in chronological order — and with two stored exchanges the pairs are
passed newest first, not chronologically; the full message payload shows
the same order. -/
theorem c4_context_slice_mismatch :
    prior_exchanges mem_four = [("q3", "a3"), ("q2", "a2"), ("q1", "a1")] ∧
    spec_prior_exchanges mem_four = [("q2", "a2"), ("q3", "a3"), ("q4", "a4")] ∧
    prior_exchanges mem_four ≠ spec_prior_exchanges mem_four ∧
    prior_exchanges mem_two = [("q2", "a2"), ("q1", "a1")] ∧
    spec_prior_exchanges mem_two = [("q1", "a1"), ("q2", "a2")] ∧
    prior_exchanges mem_two ≠ spec_prior_exchanges mem_two ∧
    build_messages system_prompt mem_four "p" =
      [(Role.system, system_prompt), (Role.user, "q3"), (Role.assistant, "a3"),
       (Role.user, "q2"), (Role.assistant, "a2"), (Role.user, "q1"),
       (Role.assistant, "a1"), (Role.user, "p")] := by
  refine ⟨rfl, rfl, by decide, rfl, rfl, by decide, rfl⟩

/-- C8: `clear_memory` is idempotent (`get_memory` is empty after the first
and after the second call, and the second call changes nothing), and
`add_premium_user` is idempotent (the second grant is a no-op: the user is
premium and no second row appears). -/
theorem c8_idempotence :
    (∀ m : List (String × String),
      get_memory (clear_memory m) = [] ∧
      clear_memory (clear_memory m) = clear_memory m ∧
      get_memory (clear_memory (clear_memory m)) = []) ∧
    (∀ (premium : List Nat) (uid : Nat),
      add_premium_user (add_premium_user premium uid) uid = add_premium_user premium uid ∧
      is_premium_user (add_premium_user premium uid) uid = true ∧
      (add_premium_user (add_premium_user premium uid) uid).count uid =
        (add_premium_user premium uid).count uid) := by
  constructor
  · intro m
    exact ⟨rfl, rfl, rfl⟩
  · intro premium uid
    have hmem : (add_premium_user premium uid).contains uid = true := by
      unfold add_premium_user
      split
      · next h => exact h
      · simp
    have key : ∀ l : List Nat, l.contains uid = true → add_premium_user l uid = l := by
      intro l hl
      unfold add_premium_user
      rw [if_pos hl]
    have hstable := key _ hmem
    exact ⟨hstable, by rw [is_premium_user, hmem], by rw [hstable]⟩

/-- C9 (the code at the failing input): when two concurrent
`update_request_count` calls for the same user both run their `SELECT`
before either write (possible because the `await` between the two
statements is a scheduling point), and no row for today exists yet, both
take the `INSERT OR REPLACE (today, 1)` branch and the final count is 1 —
one increment is lost — whereas the serial schedule yields 2; running the
read and then the write back-to-back is exactly `update_request_count`. -/
theorem c9_interleaving_loses_increment :
    (run_schedule "2025-10-12" [true, false, true, false]
        { db := none, a := .ready, b := .ready }).db = some ("2025-10-12", 1) ∧
    (run_schedule "2025-10-12" [true, true, false, false]
        { db := none, a := .ready, b := .ready }).db = some ("2025-10-12", 2) ∧
    (∀ (uid : Nat) (today : String) (req : Option ReqRow),
      write_back today req req = update_request_count [] uid today req) := by
  refine ⟨by decide, by decide, ?_⟩
  intro uid today req
  cases req with
  | none => rfl
  | some dc => rfl

/-- C1: for every non-admin user `get_requests_left` returns
`max(0, ceiling - count)`, the ceiling being the premium ceiling (500) for
members of the premium set and the standard ceiling (50) otherwise, with
the stored count read as 0 when the stored date differs from today; for
every admin user it returns the unbounded value. -/
theorem c1_requests_left_formula (adminIds premium : List Nat) (uid : Nat)
    (today : String) (req : Option ReqRow) :
    (adminIds.contains uid = false →
      get_requests_left adminIds premium uid today req =
        .fin (max 0
          ((if is_premium_user premium uid then PREMIUM_REQUEST_LIMIT else REQUEST_LIMIT) -
            stored_count_today today req))) ∧
    (adminIds.contains uid = true →
      get_requests_left adminIds premium uid today req = .unbounded) :=
  ⟨fun h => requests_left_nonadmin adminIds premium uid today req h,
   fun h => requests_left_admin adminIds premium uid today req h⟩

/-- C1 witness: a premium user with 460 requests recorded today has 40 left. -/
theorem c1_requests_left_witness :
    get_requests_left [] [7] 7 "2025-10-12" (some ("2025-10-12", 460)) = .fin 40 := by
  have h := (c1_requests_left_formula [] [7] 7 "2025-10-12" (some ("2025-10-12", 460))).1 rfl
  rw [h]
  decide

/-- C2: for every admin user `update_request_count` is a no-op that neither
creates nor mutates the QuotaRecord; for every non-admin user, a missing
row or a stale date resets the record to `(today, 1)`, and a row already
dated today gets its count incremented by exactly 1. -/
theorem c2_record_usage_spec (adminIds : List Nat) (uid : Nat) (today : String)
    (req : Option ReqRow) :
    (adminIds.contains uid = true → update_request_count adminIds uid today req = req) ∧
    (adminIds.contains uid = false →
      update_request_count adminIds uid today req =
        match req with
        | none => some (today, 1)
        | some (d, c) => if d = today then some (d, c + 1) else some (today, 1)) :=
  ⟨fun h => by unfold update_request_count; rw [h, if_pos rfl],
   fun h => update_nonadmin adminIds uid today req h⟩

/-- C2 witness: a non-admin user's fresh row gets its count bumped from 4 to 5. -/
theorem c2_record_usage_witness :
    update_request_count [] 9 "2025-10-12" (some ("2025-10-12", 4)) =
      some ("2025-10-12", 5) := by
  have h := (c2_record_usage_spec [] 9 "2025-10-12" (some ("2025-10-12", 4))).2 rfl
  rw [h]
  decide

/-- C5: for a user neither premium nor admin, each `update_request_count`
call on a fixed day decreases `get_requests_left` by exactly 1 while it is
positive, leaves it 0 once it is 0, the value is never negative, and the
call never fails past the ceiling — the stored count just keeps
incrementing (the new row is dated today with count one more than today's
stored count). -/
theorem c5_standard_countdown (adminIds premium : List Nat) (uid : Nat)
    (today : String) (req : Option ReqRow)
    (hadm : adminIds.contains uid = false)
    (hprem : premium.contains uid = false) :
    (∀ r : Int, get_requests_left adminIds premium uid today req = .fin r → 0 < r →
      get_requests_left adminIds premium uid today
        (update_request_count adminIds uid today req) = .fin (r - 1)) ∧
    (get_requests_left adminIds premium uid today req = .fin 0 →
      get_requests_left adminIds premium uid today
        (update_request_count adminIds uid today req) = .fin 0) ∧
    (∀ r : Int, get_requests_left adminIds premium uid today req = .fin r → 0 ≤ r) ∧
    (∀ (d : String) (c : Int), update_request_count adminIds uid today req = some (d, c) →
      d = today ∧ c = 1 + stored_count_today today req) := by
  have hpu : is_premium_user premium uid = false := hprem
  have hlim0 : (if is_premium_user premium uid then PREMIUM_REQUEST_LIMIT else REQUEST_LIMIT) =
      REQUEST_LIMIT := by
    rw [hpu, if_neg Bool.false_ne_true]
  have hL : ∀ r : Option ReqRow, get_requests_left adminIds premium uid today r =
      .fin (max 0 (REQUEST_LIMIT - stored_count_today today r)) := by
    intro r
    rw [requests_left_nonadmin adminIds premium uid today r hadm, hlim0]
  have hR : REQUEST_LIMIT = (50 : Int) := rfl
  have hUnone : update_request_count adminIds uid today none = some (today, 1) := by
    rw [update_nonadmin adminIds uid today none hadm]
  have hUsame : ∀ c : Int, update_request_count adminIds uid today (some (today, c)) =
      some (today, c + 1) := by
    intro c
    rw [update_nonadmin adminIds uid today (some (today, c)) hadm]
    dsimp only
    rw [if_pos rfl]
  have hUother : ∀ (d : String) (c : Int), d ≠ today →
      update_request_count adminIds uid today (some (d, c)) = some (today, 1) := by
    intro d c hd
    rw [update_nonadmin adminIds uid today (some (d, c)) hadm]
    dsimp only
    rw [if_neg hd]
  refine ⟨?_, ?_, ?_, ?_⟩
  · intro r hr hpos
    rw [hL req, RequestsLeft.fin.injEq] at hr
    subst hr
    cases req with
    | none =>
        rw [stored_count_today_none] at hpos
        rw [hUnone, hL (some (today, 1)), stored_count_today_same, stored_count_today_none,
          RequestsLeft.fin.injEq]
        omega
    | some dc =>
        obtain ⟨d, c⟩ := dc
        by_cases hd : d = today
        · subst hd
          rw [stored_count_today_same] at hpos
          rw [hUsame c, hL (some (d, c + 1)), stored_count_today_same,
            stored_count_today_same, RequestsLeft.fin.injEq]
          omega
        · rw [stored_count_today_other today d c hd] at hpos
          rw [hUother d c hd, hL (some (today, 1)), stored_count_today_same,
            stored_count_today_other today d c hd, RequestsLeft.fin.injEq]
          omega
  · intro h0
    rw [hL req, RequestsLeft.fin.injEq] at h0
    cases req with
    | none =>
        rw [stored_count_today_none] at h0
        rw [hUnone, hL (some (today, 1)), stored_count_today_same, RequestsLeft.fin.injEq]
        omega
    | some dc =>
        obtain ⟨d, c⟩ := dc
        by_cases hd : d = today
        · subst hd
          rw [stored_count_today_same] at h0
          rw [hUsame c, hL (some (d, c + 1)), stored_count_today_same,
            RequestsLeft.fin.injEq]
          omega
        · rw [stored_count_today_other today d c hd] at h0
          rw [hUother d c hd, hL (some (today, 1)), stored_count_today_same,
            RequestsLeft.fin.injEq]
          omega
  · intro r hr
    rw [hL req, RequestsLeft.fin.injEq] at hr
    omega
  · intro d c hc
    cases req with
    | none =>
        rw [hUnone, Option.some.injEq, Prod.mk.injEq] at hc
        obtain ⟨h1, h2⟩ := hc
        rw [stored_count_today_none]
        exact ⟨h1.symm, by omega⟩
    | some dc =>
        obtain ⟨d0, c0⟩ := dc
        by_cases hd0 : d0 = today
        · subst hd0
          rw [hUsame c0, Option.some.injEq, Prod.mk.injEq] at hc
          obtain ⟨h1, h2⟩ := hc
          rw [stored_count_today_same]
          exact ⟨h1.symm, by omega⟩
        · rw [hUother d0 c0 hd0, Option.some.injEq, Prod.mk.injEq] at hc
          obtain ⟨h1, h2⟩ := hc
          rw [stored_count_today_other today d0 c0 hd0]
          exact ⟨h1.symm, by omega⟩

/-- C5 witness: a standard user at 49 used requests has 1 left; one more
recorded usage leaves 0. -/
theorem c5_standard_countdown_witness :
    get_requests_left [] [] 5 "2025-10-12"
      (update_request_count [] 5 "2025-10-12" (some ("2025-10-12", 49))) = .fin 0 := by
  have h := (c5_standard_countdown [] [] 5 "2025-10-12" (some ("2025-10-12", 49)) rfl rfl).1
    1 (by decide) (by decide)
  simpa using h

/-- C6: recording any positive number of usages on day `d1` leaves the
allowance observed on a different day `d2` at the fresh-record value; and
when the prior record is not dated `d2` (the only temporally possible
shape), the observed `d2` allowance is exactly what it was before the
recordings — the reset happens on the next chargeable action, not
retroactively. -/
theorem c6_day_reset (adminIds premium : List Nat) (uid : Nat) (d1 d2 : String)
    (req : Option ReqRow) (N : Nat) (hne : d1 ≠ d2) (hN : 1 ≤ N) :
    get_requests_left adminIds premium uid d2 (run_updates adminIds uid d1 N req) =
      get_requests_left adminIds premium uid d2 none ∧
    ((∀ (d : String) (c : Int), req = some (d, c) → d ≠ d2) →
      get_requests_left adminIds premium uid d2 (run_updates adminIds uid d1 N req) =
        get_requests_left adminIds premium uid d2 req) := by
  cases hadm : adminIds.contains uid with
  | true =>
      rw [run_updates_admin adminIds uid d1 hadm N req,
        requests_left_admin adminIds premium uid d2 req hadm,
        requests_left_admin adminIds premium uid d2 none hadm]
      exact ⟨rfl, fun _ => rfl⟩
  | false =>
      obtain ⟨c, hc⟩ := run_updates_nonadmin_date adminIds uid d1 hadm N req hN
      rw [hc]
      have hL : ∀ r : Option ReqRow, get_requests_left adminIds premium uid d2 r =
          .fin (max 0
            ((if is_premium_user premium uid then PREMIUM_REQUEST_LIMIT else REQUEST_LIMIT) -
              stored_count_today d2 r)) :=
        fun r => requests_left_nonadmin adminIds premium uid d2 r hadm
      have hs1 : stored_count_today d2 (some (d1, c)) = 0 := by
        dsimp only [stored_count_today]
        rw [if_neg hne]
      constructor
      · rw [hL (some (d1, c)), hL none, hs1]
        rfl
      · intro hreq
        rw [hL (some (d1, c)), hL req, hs1]
        have hs2 : stored_count_today d2 req = 0 := by
          cases req with
          | none => rfl
          | some dc =>
              obtain ⟨d, c0⟩ := dc
              dsimp only [stored_count_today]
              rw [if_neg (hreq d c0 rfl)]
        rw [hs2]

/-- C6 witness: five usages recorded on 2025-01-01 leave the allowance
observed on 2025-01-02 at the fresh-record value. -/
theorem c6_day_reset_witness :
    get_requests_left [] [] 3 "2025-01-02"
        (run_updates [] 3 "2025-01-01" 5 (some ("2024-12-31", 7))) =
      get_requests_left [] [] 3 "2025-01-02" none :=
  (c6_day_reset [] [] 3 "2025-01-01" "2025-01-02" (some ("2024-12-31", 7)) 5
    (by decide) (by decide)).1

/-! ## Lemmas characterising the failure paths of the handlers -/

theorem handle_text_error (adminIds : List Nat) (uid : Nat) (today text e : String)
    (llm : List (Role × String) → Except String String) (db : Db)
    (hllm : ∀ ms, llm ms = Except.error e)
    (htext : ¬ strip text = "")
    (hstate : adminIds.contains uid = false ∨ ∀ s ∈ admin_text_states, db.session ≠ some s)
    (hquota : adminIds.contains uid = true ∨
      (get_requests_left adminIds db.premium uid today db.req).leZero = false) :
    handle_text adminIds uid today text llm db =
      ({ db with msgCount := db.msgCount + 1, session := none }, .apiError e) := by
  simp only [handle_text]
  rw [if_neg htext]
  cases hA : adminIds.contains uid with
  | false =>
      have hq : (get_requests_left adminIds db.premium uid today db.req).leZero = false := by
        rcases hquota with h | h
        · rw [hA] at h
          exact absurd h (by simp)
        · exact h
      rw [hq]
      simp only [hllm]
      rfl
  | true =>
      have hs : ∀ s ∈ admin_text_states, db.session ≠ some s := by
        rcases hstate with h | h
        · rw [hA] at h
          exact absurd h (by simp)
        · exact h
      have h1 : (db.session == some "admin_broadcast") = false := by
        rw [beq_eq_false_iff_ne]
        exact hs _ (by simp [admin_text_states])
      have h2 : (db.session == some "admin_view_memory") = false := by
        rw [beq_eq_false_iff_ne]
        exact hs _ (by simp [admin_text_states])
      have h3 : (db.session == some "admin_add_premium") = false := by
        rw [beq_eq_false_iff_ne]
        exact hs _ (by simp [admin_text_states])
      have h4 : (db.session == some "admin_remove_premium") = false := by
        rw [beq_eq_false_iff_ne]
        exact hs _ (by simp [admin_text_states])
      simp only [h1, h2, h3, h4, Bool.not_true, Bool.and_false]
      simp only [hllm]
      rfl

theorem handle_photo_error (adminIds : List Nat) (uid : Nat) (today ocr e : String)
    (llm : List (Role × String) → Except String String) (db : Db)
    (hllm : ∀ ms, llm ms = Except.error e)
    (hocr : ¬ ocr = "")
    (hquota : adminIds.contains uid = true ∨
      (get_requests_left adminIds db.premium uid today db.req).leZero = false) :
    handle_photo adminIds uid today ocr llm db =
      ({ db with photoCount := db.photoCount + 1, session := none }, .apiError e) := by
  simp only [handle_photo]
  cases hA : adminIds.contains uid with
  | false =>
      have hq : (get_requests_left adminIds db.premium uid today db.req).leZero = false := by
        rcases hquota with h | h
        · rw [hA] at h
          exact absurd h (by simp)
        · exact h
      rw [hq, if_neg hocr]
      simp only [hllm]
      rfl
  | true =>
      simp only [Bool.not_true, Bool.and_false]
      rw [if_neg hocr]
      simp only [hllm]
      rfl

theorem handle_photo_empty (adminIds : List Nat) (uid : Nat) (today : String)
    (llm : List (Role × String) → Except String String) (db : Db)
    (hquota : adminIds.contains uid = true ∨
      (get_requests_left adminIds db.premium uid today db.req).leZero = false) :
    handle_photo adminIds uid today "" llm db =
      ({ db with photoCount := db.photoCount + 1, session := none }, .cantRecognize) := by
  simp only [handle_photo]
  cases hA : adminIds.contains uid with
  | false =>
      have hq : (get_requests_left adminIds db.premium uid today db.req).leZero = false := by
        rcases hquota with h | h
        · rw [hA] at h
          exact absurd h (by simp)
        · exact h
      rw [hq]
      rfl
  | true =>
      simp only [Bool.not_true, Bool.and_false]
      rfl

/-- C7: whenever the completion collaborator raises (and, for photos, also
whenever text extraction yields the empty string), the handler records no
usage against the quota, writes no memory entry, and clears the user's
session back to idle — so usage and memory mutations happen only on the
success path. -/
theorem c7_no_effects_on_failure :
    (∀ (adminIds : List Nat) (uid : Nat) (today text e : String)
        (llm : List (Role × String) → Except String String) (db : Db),
      (∀ ms, llm ms = Except.error e) →
      ¬ strip text = "" →
      (adminIds.contains uid = false ∨ ∀ s ∈ admin_text_states, db.session ≠ some s) →
      (adminIds.contains uid = true ∨
        (get_requests_left adminIds db.premium uid today db.req).leZero = false) →
      (handle_text adminIds uid today text llm db).1.req = db.req ∧
      (handle_text adminIds uid today text llm db).1.memory = db.memory ∧
      (handle_text adminIds uid today text llm db).1.session = none) ∧
    (∀ (adminIds : List Nat) (uid : Nat) (today ocr e : String)
        (llm : List (Role × String) → Except String String) (db : Db),
      (∀ ms, llm ms = Except.error e) →
      ¬ ocr = "" →
      (adminIds.contains uid = true ∨
        (get_requests_left adminIds db.premium uid today db.req).leZero = false) →
      (handle_photo adminIds uid today ocr llm db).1.req = db.req ∧
      (handle_photo adminIds uid today ocr llm db).1.memory = db.memory ∧
      (handle_photo adminIds uid today ocr llm db).1.session = none) ∧
    (∀ (adminIds : List Nat) (uid : Nat) (today : String)
        (llm : List (Role × String) → Except String String) (db : Db),
      (adminIds.contains uid = true ∨
        (get_requests_left adminIds db.premium uid today db.req).leZero = false) →
      (handle_photo adminIds uid today "" llm db).1.req = db.req ∧
      (handle_photo adminIds uid today "" llm db).1.memory = db.memory ∧
      (handle_photo adminIds uid today "" llm db).1.session = none) := by
  refine ⟨?_, ?_, ?_⟩
  · intro adminIds uid today text e llm db hllm htext hstate hquota
    rw [handle_text_error adminIds uid today text e llm db hllm htext hstate hquota]
    exact ⟨rfl, rfl, rfl⟩
  · intro adminIds uid today ocr e llm db hllm hocr hquota
    rw [handle_photo_error adminIds uid today ocr e llm db hllm hocr hquota]
    exact ⟨rfl, rfl, rfl⟩
  · intro adminIds uid today llm db hquota
    rw [handle_photo_empty adminIds uid today llm db hquota]
    exact ⟨rfl, rfl, rfl⟩

/-- C7 witness: a failing completion call on a concrete text message leaves
the quota row and memory untouched and the session idle. -/
theorem c7_no_effects_witness :
    (handle_text [] 1 "2025-10-12" "solve this" (fun _ => Except.error "boom")
        { req := some ("2025-10-12", 3), memory := [("q", "a")],
          session := some "awaiting_text", premium := [], broadcastDraft := none,
          msgCount := 0, photoCount := 0 }).1.req = some ("2025-10-12", 3) ∧
    (handle_text [] 1 "2025-10-12" "solve this" (fun _ => Except.error "boom")
        { req := some ("2025-10-12", 3), memory := [("q", "a")],
          session := some "awaiting_text", premium := [], broadcastDraft := none,
          msgCount := 0, photoCount := 0 }).1.memory = [("q", "a")] ∧
    (handle_text [] 1 "2025-10-12" "solve this" (fun _ => Except.error "boom")
        { req := some ("2025-10-12", 3), memory := [("q", "a")],
          session := some "awaiting_text", premium := [], broadcastDraft := none,
          msgCount := 0, photoCount := 0 }).1.session = none :=
  c7_no_effects_on_failure.1 [] 1 "2025-10-12" "solve this" "boom"
    (fun _ => Except.error "boom")
    { req := some ("2025-10-12", 3), memory := [("q", "a")],
      session := some "awaiting_text", premium := [], broadcastDraft := none,
      msgCount := 0, photoCount := 0 }
    (fun _ => rfl) (by decide) (Or.inl rfl) (Or.inr (by decide))

/-- C10: as configured in the source, the admin set is empty, so the admin
membership test is false for every user id: `get_requests_left` always
returns a finite number (never the unbounded value),
`update_request_count` never takes the admin early return, and the admin
panel command refuses every caller without touching any state. -/
theorem c10_admin_set_empty :
    ADMIN_IDS = [] ∧
    (∀ uid : Nat, ADMIN_IDS.contains uid = false) ∧
    (∀ (premium : List Nat) (uid : Nat) (today : String) (req : Option ReqRow),
      ∃ n : Int, get_requests_left ADMIN_IDS premium uid today req = .fin n) ∧
    (∀ (uid : Nat) (today : String) (req : Option ReqRow),
      update_request_count ADMIN_IDS uid today req =
        match req with
        | none => some (today, 1)
        | some (d, c) => if d = today then some (d, c + 1) else some (today, 1)) ∧
    (∀ (uid : Nat) (db : Db), cmd_admin_panel ADMIN_IDS uid db = (db, .noAccess)) := by
  refine ⟨rfl, fun uid => rfl, ?_, ?_, ?_⟩
  · intro premium uid today req
    rw [requests_left_nonadmin ADMIN_IDS premium uid today req rfl]
    exact ⟨_, rfl⟩
  · intro uid today req
    exact update_nonadmin ADMIN_IDS uid today req rfl
  · intro uid db
    rfl

end Helper
